import Mathlib

/-!
Shallow embedding of the tool-dispatch layer of `mcp_atlassian/jira/jira_server.py`
(the `call_tool` handler created by `create_jira_server`), together with proofs of
the specification claims about it.

Modelling conventions:
* JSON-like Python values (tool arguments, serialized responses) are the inductive
  type `Json`.  Python floats are not modelled (no claim involves them).
* The `jira_service` collaborator (spec name: Gateway) is a record of two fallible
  operations, `get_issue` and `search_issues`, mirroring the two calls the handler
  makes.  Exceptions are modelled as `Except String`, the string being `str(e)`.
* Upstream issue objects are duck-typed in the source (`hasattr(issue,
  "to_simplified_dict")`), modelled by the two-constructor type `IssueObj`;
  upstream search results (`hasattr(search_result, "issues")`, plus `getattr`
  with defaults for `total` / `start_at` / `max_results`) by `SearchObj`.
* `call_tool` returns both the outcome and the list of Gateway calls it made, so
  that "before any Gateway operation is invoked" is expressible as facts about
  the trace.  The trace component is independent of the answers of the Gateway.
-/

/-- JSON-like values exchanged with the caller (Python dict/list/str/int/bool/None). -/
inductive Json where
  | null
  | bool (b : Bool)
  | int (n : Int)
  | str (s : String)
  | arr (xs : List Json)
  | obj (fields : List (String × Json))
deriving Repr

/-- Python `isinstance(x, dict)` on a `Json` value. -/
def Json.isObj : Json → Bool
  | .obj _ => true
  | _ => false

/-- Python `d.get(k)` on a dict modelled as an association list (first binding wins,
as dict keys are unique). Returns `none` when the key is absent. -/
def dictGet (m : List (String × Json)) (k : String) : Option Json :=
  (m.find? (fun p => p.1 = k)).map (fun p => p.2)

/-- Python `d.get(k, default)`: the stored value when the key is present (even if that
value is `None`), the default otherwise. -/
def dictGetD (m : List (String × Json)) (k : String) (d : Json) : Json :=
  (dictGet m k).getD d

/-- Python `int(x)` as used on `arguments.get("limit", 10)` and
`arguments.get("startAt", 0)`: identity on ints, bool widening, base-10 string
parsing (`ValueError` on failure), `TypeError` on None/list/dict. -/
def pyInt : Json → Except String Int
  | .int n => .ok n
  | .bool b => .ok (if b then 1 else 0)
  | .str s =>
    match s.trim.toInt? with
    | some n => .ok n
    | none => .error ("invalid literal for int() with base 10: " ++ s)
  | _ => .error "int() argument must be a string, a bytes-like object or a real number, not the given type"

/-- Upstream issue object: either it exposes `to_simplified_dict` (whose result is
the carried `Json`), or it is a plain object serialized as the carried `Json`. -/
inductive IssueObj where
  | simplifiable (simplified : Json)
  | plain (raw : Json)
deriving Repr

/-- Line 111 / 130 of the source: `issue.to_simplified_dict() if hasattr(issue,
"to_simplified_dict") else issue`. -/
def simplifyIssue : IssueObj → Json
  | .simplifiable d => d
  | .plain v => v

/-- Upstream search-result object: either it has an `issues` attribute (a list of
issue objects) plus optional `total` / `start_at` / `max_results` attributes, or it
lacks `issues` and serializes as the carried raw `Json`. -/
inductive SearchObj where
  | withIssues (issues : List IssueObj)
      (total start_at max_results : Option Json)
  | raw (v : Json)
deriving Repr

/-- Lines 129-142 of the source: build the response dict when `search_result` has an
`issues` attribute (with `getattr` defaults 0, 0 and `len(issues)`), else pass the
raw result through unchanged. -/
def normalizeSearch : SearchObj → Json
  | .withIssues upstream t s m =>
    let issues := upstream.map simplifyIssue
    .obj [("total", t.getD (.int 0)),
          ("start_at", s.getD (.int 0)),
          ("max_results", m.getD (.int issues.length)),
          ("issues", .arr issues)]
  | .raw v => v

/-- The external collaborator `jira_service` (spec name: Gateway). `get_issue` takes
(issue_key, fields, expand, comment_limit) exactly as forwarded by the handler;
`search_issues` takes (jql, fields, limit, start). -/
structure Gateway where
  get_issue : Json → Json → Json → Json → Except String IssueObj
  search_issues : Json → Json → Int → Int → Except String SearchObj

/-- One Gateway invocation, recording the exact forwarded arguments. -/
inductive GatewayCall where
  | getIssue (issue_key fields expand comment_limit : Json)
  | search (jql fields : Json) (limit start : Int)
deriving Repr

/-- Default for the `fields` argument of both tools (source lines 99 and 116). -/
def defaultFields : String :=
  "summary,description,status,assignee,reporter,labels,priority,created,updated,issuetype"

/-- Lines 97-112: the `jira_get_issue` branch.  Reads the arguments with their
defaults, invokes the Gateway once, simplifies the returned issue object. -/
def handleGetIssue (gw : Gateway) (args : List (String × Json)) :
    Except String Json × List GatewayCall :=
  let issue_key := dictGetD args "issue_key" .null
  let fields := dictGetD args "fields" (.str defaultFields)
  let expand := dictGetD args "expand" .null
  let comment_limit := dictGetD args "comment_limit" (.int 10)
  let r := match gw.get_issue issue_key fields expand comment_limit with
    | .ok issue => Except.ok (simplifyIssue issue)
    | .error e => Except.error e
  (r, [GatewayCall.getIssue issue_key fields expand comment_limit])

/-- Lines 114-144: the `jira_search` branch.  `limit = min(int(get("limit", 10)), 50)`
then `start_at = int(get("startAt", 0))`; a coercion failure raises before the
Gateway is invoked; otherwise one `search_issues` call, then normalization. -/
def handleSearch (gw : Gateway) (args : List (String × Json)) :
    Except String Json × List GatewayCall :=
  let jql := dictGetD args "jql" .null
  let fields := dictGetD args "fields" (.str defaultFields)
  match pyInt (dictGetD args "limit" (.int 10)) with
  | .error e => (.error e, [])
  | .ok l0 =>
    let limit := min l0 50
    match pyInt (dictGetD args "startAt" (.int 0)) with
    | .error e => (.error e, [])
    | .ok start_at =>
      let r := match gw.search_issues jql fields limit start_at with
        | .ok sr => Except.ok (normalizeSearch sr)
        | .error e => Except.error e
      (r, [GatewayCall.search jql fields limit start_at])

/-- Lines 93-147: the body of the `try` block of `call_tool`: reject non-dict
arguments, dispatch on the tool name, raise `ValueError` on an unknown name. -/
def callToolBody (gw : Gateway) (name : String) (arguments : Json) :
    Except String Json × List GatewayCall :=
  match arguments with
  | .obj args =>
    if name = "jira_get_issue" then handleGetIssue gw args
    else if name = "jira_search" then handleSearch gw args
    else (.error ("Unknown tool: " ++ name), [])
  | _ => (.error "arguments must be dictionary", [])

/-- Lines 149-152: the `except Exception` clause, re-raising every failure as
`RuntimeError("Caught Exception. Error: " + str(e))`. -/
def wrapError : Except String Json → Except String Json
  | .ok v => .ok v
  | .error e => .error ("Caught Exception. Error: " ++ e)

/-- The whole `call_tool` handler (lines 89-152): the try block, with every
exception wrapped by the uniform error contract.  The second component is the
trace of Gateway calls made during the invocation. -/
def call_tool (gw : Gateway) (name : String) (arguments : Json) :
    Except String Json × List GatewayCall :=
  (wrapError (callToolBody gw name arguments).1, (callToolBody gw name arguments).2)

/-- A Gateway whose operations always succeed, returning a fixed simplifiable issue
and an empty search page.  Used to probe the dispatcher at concrete inputs. -/
def gwOk : Gateway where
  get_issue := fun _ _ _ _ => .ok (.simplifiable (.obj [("key", .str "PROJ-1")]))
  search_issues := fun _ _ _ _ => .ok (.withIssues [] none none none)

/-- A Gateway returning a fixed issue object from `get_issue`. -/
def gwIssue (i : IssueObj) : Gateway where
  get_issue := fun _ _ _ _ => .ok i
  search_issues := fun _ _ _ _ => .error "unused"

/-- A Gateway returning a fixed search-result object from `search_issues`. -/
def gwSearch (sr : SearchObj) : Gateway where
  get_issue := fun _ _ _ _ => .error "unused"
  search_issues := fun _ _ _ _ => .ok sr

/-- Helper: when a key is absent from the arguments dict, `d.get(k, default)`
returns the default. -/
theorem dictGetD_of_none (m : List (String × Json)) (k : String) (d : Json)
    (h : dictGet m k = none) : dictGetD m k d = d := by
  unfold dictGetD
  rw [h]
  rfl

/-- Claim C1: every exception raised while handling a tool invocation — unknown
tool, malformed arguments, upstream failure, or anything else — is caught and
re-raised as a single RuntimeError whose message is exactly
"Caught Exception. Error: " followed by the original message; no exception
escapes unwrapped. -/
theorem C1_uniform_error_contract (gw : Gateway) (name : String) (arguments : Json)
    (e : String) (h : (call_tool gw name arguments).1 = .error e) :
    ∃ m, e = "Caught Exception. Error: " ++ m := by
  have h1 : wrapError (callToolBody gw name arguments).1 = .error e := h
  cases hq : (callToolBody gw name arguments).1 with
  | ok v => rw [hq] at h1; exact absurd h1 (by simp [wrapError])
  | error m =>
    rw [hq] at h1
    exact ⟨m, by simpa [wrapError] using h1.symm⟩

/-- Witness for C1 at the concrete invocation (gwOk, "bogus", empty dict). -/
theorem C1_uniform_error_contract_witness :
    ∃ m, ("Caught Exception. Error: " ++ "Unknown tool: bogus") =
      "Caught Exception. Error: " ++ m :=
  C1_uniform_error_contract gwOk "bogus" (.obj [])
    ("Caught Exception. Error: " ++ "Unknown tool: bogus") rfl

/-- Claim C4: a non-mapping arguments payload yields the uniform error before any
Gateway operation is invoked (the Gateway call trace is empty), for every tool
name. -/
theorem C4_nondict_rejected_before_gateway (gw : Gateway) (name : String) (v : Json)
    (h : v.isObj = false) :
    call_tool gw name v =
      (.error ("Caught Exception. Error: " ++ "arguments must be dictionary"), []) := by
  cases v with
  | obj fields => simp [Json.isObj] at h
  | null => rfl
  | bool b => rfl
  | int n => rfl
  | str s => rfl
  | arr xs => rfl

/-- Witness for C4 at the concrete payload `3` (an integer, not a mapping). -/
theorem C4_nondict_rejected_before_gateway_witness :
    Json.isObj (.int 3) = false ∧
      call_tool gwOk "jira_get_issue" (.int 3) =
        (.error ("Caught Exception. Error: " ++ "arguments must be dictionary"), []) :=
  ⟨rfl, C4_nondict_rejected_before_gateway gwOk "jira_get_issue" (.int 3) rfl⟩

/-- Claim C5: an unknown tool name (with a mapping-shaped payload) fails with the
uniform error before any Gateway operation (empty call trace) and never returns a
partial result. -/
theorem C5_unknown_tool_rejected (gw : Gateway) (name : String)
    (args : List (String × Json))
    (h1 : name ≠ "jira_get_issue") (h2 : name ≠ "jira_search") :
    call_tool gw name (.obj args) =
      (.error ("Caught Exception. Error: " ++ ("Unknown tool: " ++ name)), []) := by
  simp [call_tool, callToolBody, wrapError, h1, h2]

/-- Witness for C5 at the concrete tool name "bogus". -/
theorem C5_unknown_tool_rejected_witness :
    "bogus" ≠ "jira_get_issue" ∧ "bogus" ≠ "jira_search" ∧
      call_tool gwOk "bogus" (.obj []) =
        (.error ("Caught Exception. Error: " ++ ("Unknown tool: " ++ "bogus")), []) :=
  ⟨by decide, by decide,
    C5_unknown_tool_rejected gwOk "bogus" [] (by decide) (by decide)⟩

/-- Counterexample to claim C3: invoking `jira_get_issue` with `issue_key` missing
does not fail with a validation error before the Gateway is reached — with a
Gateway that answers successfully, the invocation succeeds, and the Gateway was
invoked (the call trace is non-empty). -/
theorem C3_counterexample :
    (call_tool gwOk "jira_get_issue" (.obj [])).1 = .ok (.obj [("key", .str "PROJ-1")]) ∧
      (call_tool gwOk "jira_get_issue" (.obj [])).2 ≠ [] :=
  ⟨rfl, List.cons_ne_nil _ _⟩

/-- Claim C3 (amended): a missing `issue_key` / `jql` is not validated by the
dispatcher; the missing value is forwarded to the Gateway as None (and an empty
string is forwarded as-is), the Gateway is always invoked, and the other
parameters take their declared defaults. -/
theorem C3_missing_required_forwarded (gw : Gateway) :
    (call_tool gw "jira_get_issue" (.obj [])).2 =
      [GatewayCall.getIssue .null (.str defaultFields) .null (.int 10)] ∧
    (call_tool gw "jira_get_issue" (.obj [("issue_key", .str "")])).2 =
      [GatewayCall.getIssue (.str "") (.str defaultFields) .null (.int 10)] ∧
    (call_tool gw "jira_search" (.obj [])).2 =
      [GatewayCall.search .null (.str defaultFields) 10 0] ∧
    (call_tool gw "jira_search" (.obj [("jql", .str "")])).2 =
      [GatewayCall.search (.str "") (.str defaultFields) 10 0] :=
  ⟨rfl, rfl, rfl, rfl⟩

/-- Counterexample to claim C6: the coercion of `startAt` is not non-negative —
the caller value -3 is coerced to -3 and forwarded to the Gateway unchanged. -/
theorem C6_counterexample :
    (call_tool gwOk "jira_search" (.obj [("jql", .str "a"), ("startAt", .int (-3))])).2 =
      [GatewayCall.search (.str "a") (.str defaultFields) 10 (-3)] ∧
      ¬ (0 ≤ (-3 : Int)) :=
  ⟨rfl, by decide⟩

/-- Claim C6 (amended): `startAt` is coerced to an integer and forwarded to the
Gateway unchanged, with no clamping in either direction — every coercible value,
however large (or negative), is passed through. -/
theorem C6_startAt_forwarded_unclamped :
    (∀ (gw : Gateway) (q : String) (n : Int),
      (call_tool gw "jira_search" (.obj [("jql", .str q), ("startAt", .int n)])).2 =
        [GatewayCall.search (.str q) (.str defaultFields) 10 n]) ∧
    (∀ (gw : Gateway) (q : String) (v : Json) (n : Int), pyInt v = .ok n →
      (call_tool gw "jira_search" (.obj [("jql", .str q), ("startAt", v)])).2 =
        [GatewayCall.search (.str q) (.str defaultFields) 10 n]) := by
  constructor
  · intro gw q n
    rfl
  · intro gw q v n h
    show (handleSearch gw [("jql", Json.str q), ("startAt", v)]).2 = _
    unfold handleSearch
    rw [show dictGetD [("jql", Json.str q), ("startAt", v)] "startAt" (Json.int 0) = v
          from rfl, h]
    rfl

/-- Witness for C6 (amended) at the concrete coercible value 12345678901. -/
theorem C6_startAt_forwarded_unclamped_witness :
    pyInt (.int 12345678901) = .ok 12345678901 ∧
      (call_tool gwOk "jira_search"
          (.obj [("jql", .str "a"), ("startAt", .int 12345678901)])).2 =
        [GatewayCall.search (.str "a") (.str defaultFields) 10 12345678901] :=
  ⟨rfl, C6_startAt_forwarded_unclamped.2 gwOk "a" (.int 12345678901) 12345678901 rfl⟩

/-- Claim C8: normalization is defensive passthrough — an upstream issue exposing
`to_simplified_dict` is replaced by the result of that method, any other issue
object is passed through unchanged, and a search result lacking the `issues`
container is returned verbatim; none of these shapes makes the invocation fail. -/
theorem C8_defensive_passthrough :
    (∀ (d : Json) (k : String),
      (call_tool (gwIssue (.simplifiable d)) "jira_get_issue"
          (.obj [("issue_key", .str k)])).1 = .ok d) ∧
    (∀ (v : Json) (k : String),
      (call_tool (gwIssue (.plain v)) "jira_get_issue"
          (.obj [("issue_key", .str k)])).1 = .ok v) ∧
    (∀ (w : Json) (q : String),
      (call_tool (gwSearch (.raw w)) "jira_search"
          (.obj [("jql", .str q)])).1 = .ok w) :=
  ⟨fun _ _ => rfl, fun _ _ => rfl, fun _ _ => rfl⟩

/-- Claim C9: for an upstream search result with the `issues` container, the
response is the mapping (total, start_at, max_results, issues), where the three
scalars are read from the upstream object when present, `max_results` defaults to
the count of returned issues when absent, and the issues sequence is the upstream
sequence normalized element by element in the same order (never re-sorted). -/
theorem C9_search_response_shape :
    (∀ (iss : List IssueObj) (t s m : Json) (q : String),
      (call_tool (gwSearch (.withIssues iss (some t) (some s) (some m))) "jira_search"
          (.obj [("jql", .str q)])).1 =
        .ok (.obj [("total", t), ("start_at", s), ("max_results", m),
                   ("issues", .arr (iss.map simplifyIssue))])) ∧
    (∀ (iss : List IssueObj) (t s : Json) (q : String),
      (call_tool (gwSearch (.withIssues iss (some t) (some s) none)) "jira_search"
          (.obj [("jql", .str q)])).1 =
        .ok (.obj [("total", t), ("start_at", s),
                   ("max_results", .int ((iss.map simplifyIssue).length : Int)),
                   ("issues", .arr (iss.map simplifyIssue))])) ∧
    (∀ (iss : List IssueObj) (i : Nat),
      (iss.map simplifyIssue).get? i = (iss.get? i).map simplifyIssue) := by
  refine ⟨fun _ _ _ _ _ => rfl, fun _ _ _ _ => rfl, fun iss i => ?_⟩
  simp [List.get?_eq_getElem?, List.getElem?_map]

/-- Claim C10: when the upstream search result has the `issues` container but lacks
the `total` attribute or the `start_at` attribute, the corresponding response
field defaults to 0. -/
theorem C10_total_startAt_default_zero :
    (∀ (iss : List IssueObj) (s m : Json) (q : String),
      (call_tool (gwSearch (.withIssues iss none (some s) (some m))) "jira_search"
          (.obj [("jql", .str q)])).1 =
        .ok (.obj [("total", .int 0), ("start_at", s), ("max_results", m),
                   ("issues", .arr (iss.map simplifyIssue))])) ∧
    (∀ (iss : List IssueObj) (t m : Json) (q : String),
      (call_tool (gwSearch (.withIssues iss (some t) none (some m))) "jira_search"
          (.obj [("jql", .str q)])).1 =
        .ok (.obj [("total", t), ("start_at", .int 0), ("max_results", m),
                   ("issues", .arr (iss.map simplifyIssue))])) :=
  ⟨fun _ _ _ _ => rfl, fun _ _ _ _ => rfl⟩

/-- Helper: the `jira_get_issue` branch never makes a search call. -/
theorem handleGetIssue_no_search (gw : Gateway) (args : List (String × Json))
    (q f : Json) (l s : Int) :
    GatewayCall.search q f l s ∉ (handleGetIssue gw args).2 := by
  unfold handleGetIssue
  simp

/-- Helper: every search call made by the `jira_search` branch carries a limit
of at most 50 (the source computes `min(int(...), 50)`). -/
theorem handleSearch_limit_le_50 (gw : Gateway) (args : List (String × Json))
    (q f : Json) (l s : Int)
    (h : GatewayCall.search q f l s ∈ (handleSearch gw args).2) : l ≤ 50 := by
  unfold handleSearch at h
  split at h
  · simp at h
  · split at h
    · simp at h
    · simp only [List.mem_singleton, GatewayCall.search.injEq] at h
      obtain ⟨-, -, hl, -⟩ := h
      rw [hl]
      exact min_le_right _ _

/-- Counterexample to claim C2: a caller-supplied limit of 0 is forwarded to the
Gateway as 0, which does not lie in the inclusive range 1..50. -/
theorem C2_counterexample :
    (call_tool gwOk "jira_search" (.obj [("jql", .str "a"), ("limit", .int 0)])).2 =
      [GatewayCall.search (.str "a") (.str defaultFields) 0 0] ∧
      ¬ (1 ≤ (0 : Int)) :=
  ⟨rfl, by decide⟩

/-- Claim C2 (amended): the effective limit forwarded to the Gateway search
operation never exceeds the system-wide page cap of 50 — values above 50 are
silently capped to 50, not rejected — but values below 1 are forwarded
unchanged, so the effective limit is not bounded below by 1. -/
theorem C2_limit_capped_at_50 :
    (∀ (gw : Gateway) (name : String) (a : Json) (q f : Json) (l s : Int),
      GatewayCall.search q f l s ∈ (call_tool gw name a).2 → l ≤ 50) ∧
    (∀ (n : Int), 50 < n → ∀ (gw : Gateway) (q : String),
      (call_tool gw "jira_search" (.obj [("jql", .str q), ("limit", .int n)])).2 =
        [GatewayCall.search (.str q) (.str defaultFields) 50 0]) := by
  constructor
  · intro gw name a q f l s h
    cases a with
    | obj args =>
      change GatewayCall.search q f l s ∈ (callToolBody gw name (.obj args)).2 at h
      rw [show callToolBody gw name (.obj args) =
          (if name = "jira_get_issue" then handleGetIssue gw args
           else if name = "jira_search" then handleSearch gw args
           else (.error ("Unknown tool: " ++ name), [])) from rfl] at h
      split at h
      · exact absurd h (handleGetIssue_no_search gw args q f l s)
      · split at h
        · exact handleSearch_limit_le_50 gw args q f l s h
        · simp at h
    | null => exact absurd h (List.not_mem_nil _)
    | bool b => exact absurd h (List.not_mem_nil _)
    | int n => exact absurd h (List.not_mem_nil _)
    | str s0 => exact absurd h (List.not_mem_nil _)
    | arr xs => exact absurd h (List.not_mem_nil _)
  · intro n hn gw q
    show (handleSearch gw [("jql", Json.str q), ("limit", Json.int n)]).2 = _
    unfold handleSearch
    rw [show dictGetD [("jql", Json.str q), ("limit", Json.int n)] "limit" (Json.int 10) =
          Json.int n from rfl]
    show [GatewayCall.search (Json.str q) (Json.str defaultFields) (min n 50) 0] = _
    rw [min_eq_right hn.le]

/-- Witness for C2 (amended): the cap instantiated at a caller limit of 99, where
the forwarded limit is exactly 50. -/
theorem C2_limit_capped_at_50_witness :
    (50 : Int) ≤ 50 ∧
      (call_tool gwOk "jira_search" (.obj [("jql", .str "a"), ("limit", .int 99)])).2 =
        [GatewayCall.search (.str "a") (.str defaultFields) 50 0] := by
  have h2 := C2_limit_capped_at_50.2 99 (by decide) gwOk "a"
  refine ⟨C2_limit_capped_at_50.1 gwOk "jira_search"
    (.obj [("jql", .str "a"), ("limit", .int 99)]) (.str "a") (.str defaultFields) 50 0 ?_, h2⟩
  rw [h2]
  exact List.mem_singleton.mpr rfl

/-- Helper: with `fields` and `comment_limit` absent, the `jira_get_issue` Gateway
call uses their declared defaults. -/
theorem getIssue_trace_defaults (gw : Gateway) (args : List (String × Json))
    (hf : dictGet args "fields" = none) (hc : dictGet args "comment_limit" = none) :
    (call_tool gw "jira_get_issue" (.obj args)).2 =
      [GatewayCall.getIssue (dictGetD args "issue_key" .null) (.str defaultFields)
        (dictGetD args "expand" .null) (.int 10)] := by
  show (handleGetIssue gw args).2 = _
  simp only [handleGetIssue]
  rw [dictGetD_of_none args "fields" (Json.str defaultFields) hf,
      dictGetD_of_none args "comment_limit" (Json.int 10) hc]

/-- Helper: with `fields`, `limit` and `startAt` absent, the `jira_search` Gateway
call uses their declared defaults. -/
theorem search_trace_defaults (gw : Gateway) (args : List (String × Json))
    (hf : dictGet args "fields" = none) (hl : dictGet args "limit" = none)
    (hs : dictGet args "startAt" = none) :
    (call_tool gw "jira_search" (.obj args)).2 =
      [GatewayCall.search (dictGetD args "jql" .null) (.str defaultFields) 10 0] := by
  show (handleSearch gw args).2 = _
  simp only [handleSearch]
  rw [dictGetD_of_none args "fields" (Json.str defaultFields) hf,
      dictGetD_of_none args "limit" (Json.int 10) hl,
      dictGetD_of_none args "startAt" (Json.int 0) hs]
  rfl

/-- Claim C7: for every arguments mapping in which an optional parameter is absent,
the declared default is applied before the Gateway call — `fields` defaults to the
fixed essential-fields string for both tools, `comment_limit` defaults to 10 for
`jira_get_issue`, and `limit` defaults to 10 and `startAt` to 0 for `jira_search`.
The trailing conjunct pins the default string itself. -/
theorem C7_declared_defaults_applied (gw : Gateway) (args : List (String × Json))
    (hf : dictGet args "fields" = none) (hc : dictGet args "comment_limit" = none)
    (hl : dictGet args "limit" = none) (hs : dictGet args "startAt" = none) :
    ((∀ k f e c, GatewayCall.getIssue k f e c ∈ (call_tool gw "jira_get_issue" (.obj args)).2 →
        f = .str defaultFields ∧ c = .int 10) ∧
     (∀ q f l s, GatewayCall.search q f l s ∈ (call_tool gw "jira_search" (.obj args)).2 →
        f = .str defaultFields ∧ l = 10 ∧ s = 0)) ∧
    defaultFields =
      "summary,description,status,assignee,reporter,labels,priority,created,updated,issuetype" := by
  refine ⟨⟨?_, ?_⟩, rfl⟩
  · intro k f e c h
    rw [getIssue_trace_defaults gw args hf hc] at h
    simp only [List.mem_singleton, GatewayCall.getIssue.injEq] at h
    obtain ⟨-, h2, -, h4⟩ := h
    exact ⟨h2, h4⟩
  · intro q f l s h
    rw [search_trace_defaults gw args hf hl hs] at h
    simp only [List.mem_singleton, GatewayCall.search.injEq] at h
    obtain ⟨-, h2, h3, h4⟩ := h
    exact ⟨h2, h3, h4⟩

/-- Witness for C7 at the concrete mapping containing only the two required keys. -/
theorem C7_declared_defaults_applied_witness :
    (dictGet [("issue_key", Json.str "P-1"), ("jql", Json.str "x")] "fields" = none) ∧
      (Json.str defaultFields = Json.str defaultFields ∧ (10 : Int) = 10 ∧ (0 : Int) = 0) := by
  have hmain := C7_declared_defaults_applied gwOk
    [("issue_key", Json.str "P-1"), ("jql", Json.str "x")] rfl rfl rfl rfl
  have htr := search_trace_defaults gwOk
    [("issue_key", Json.str "P-1"), ("jql", Json.str "x")] rfl rfl rfl
  refine ⟨rfl, hmain.1.2 (Json.str "x") (Json.str defaultFields) 10 0 ?_⟩
  rw [htr]
  exact List.mem_singleton.mpr rfl
